import Mathlib

/-!
Shallow embedding of the query execution orchestrator in
src/src/query-executor/query-executor-base.ts.

Modelling conventions:
- The tagged operation tree node (RootOperationNode) is a record with a
  string discriminant `kind` and a numeric payload standing for the rest
  of the tree.
- A query identifier is an opaque string token.
- Promise-returning operations that may reject are modelled with Except,
  the thrown value being a JsError record.
- A textual diagnostic trace (a JS string manipulated only through
  split, slice, join on the newline character) is modelled as its list
  of lines.  An absent (undefined) trace is none; the empty string is
  the one-element list containing the empty string.
-/

/-- Operation tree node: a tagged immutable value.  The `kind`
discriminant models the TS union tag; `data` models the payload. -/
structure OpNode where
  kind : String
  data : Nat
deriving Repr, DecidableEq

/-- Query identifier: an opaque correlation token. -/
abbrev QueryId := String

/-- Query result: a generic row container (rows modelled as numbers). -/
structure QueryResult where
  rows : List Nat
deriving Repr, DecidableEq

/-- Compiled query: an opaque compiled statement plus parameters. -/
structure CompiledQuery where
  sql : String
deriving Repr, DecidableEq

/-- A thrown JS value.  `name` and `data` model the identity and the
carried data of the failure; `stack` models the optional textual
diagnostic trace as a list of lines (none when the value exposes no
string `stack` property). -/
structure JsError where
  name : String
  data : Nat
  stack : Option (List String)
deriving Repr, DecidableEq

/-- isStackHolder from the source: the thrown value is an object whose
`stack` property is a string. -/
def isStackHolder (err : JsError) : Bool :=
  err.stack.isSome

/-- A plugin: a pair of transforms addressable by the same query
identifier.  transformQuery is tree to tree; transformResult returns a
promise and may reject, hence Except. -/
structure KyselyPlugin where
  transformQuery : OpNode → QueryId → OpNode
  transformResult : QueryResult → QueryId → Except JsError QueryResult

/-- The shared default empty plugin sequence (NO_PLUGINS in the source). -/
def NO_PLUGINS : List KyselyPlugin := []

/-- Database connection: executes a compiled query, possibly rejecting. -/
structure DatabaseConnection where
  executeQuery : CompiledQuery → Except JsError QueryResult

/-- Dialect adapter: an opaque capability object, never inspected here. -/
abbrev DialectAdapter := String

/-- The executor: the immutable plugin sequence fixed at construction,
plus the abstract members of QueryExecutorBase (adapter, compileQuery,
provideConnection) supplied by subclasses, modelled as fields.
provideConnection is monomorphised to the result type at which
executeQuery uses it. -/
structure QueryExecutorBase where
  plugins : List KyselyPlugin
  adapter : DialectAdapter
  compileQuery : OpNode → QueryId → CompiledQuery
  provideConnection :
    (DatabaseConnection → Except JsError QueryResult) → Except JsError QueryResult

/-- The error message thrown by transformQuery on a kind mismatch; the
source builds it by joining four fragments with single spaces. -/
def transformQueryErrorMessage (expected actual : String) : String :=
  "KyselyPlugin.transformQuery must return a node " ++
  "of the same kind that was given to it. " ++
  "The plugin was given a " ++ expected ++
  " but it returned a " ++ actual

/-- The for-loop of QueryExecutorBase.transformQuery: thread the node
through each plugin in order, failing fast when a plugin returns a node
of a different kind. -/
def transformQueryLoop (plugins : List KyselyPlugin) (node : OpNode)
    (queryId : QueryId) : Except String OpNode :=
  match plugins with
  | [] => Except.ok node
  | plugin :: rest =>
    let transformedNode := plugin.transformQuery node queryId
    if transformedNode.kind = node.kind then
      transformQueryLoop rest transformedNode queryId
    else
      Except.error (transformQueryErrorMessage node.kind transformedNode.kind)

/-- QueryExecutorBase.transformQuery. -/
def QueryExecutorBase.transformQuery (ex : QueryExecutorBase) (node : OpNode)
    (queryId : QueryId) : Except String OpNode :=
  transformQueryLoop ex.plugins node queryId

/-- The for-loop of the private transformResult method: thread the
result through each plugin in registration order; a rejection from any
plugin aborts the chain. -/
def transformResultLoop (plugins : List KyselyPlugin) (result : QueryResult)
    (queryId : QueryId) : Except JsError QueryResult :=
  match plugins with
  | [] => Except.ok result
  | plugin :: rest =>
    match plugin.transformResult result queryId with
    | Except.ok r => transformResultLoop rest r queryId
    | Except.error e => Except.error e

/-- The private transformResult method of QueryExecutorBase. -/
def QueryExecutorBase.transformResult (ex : QueryExecutorBase)
    (result : QueryResult) (queryId : QueryId) : Except JsError QueryResult :=
  transformResultLoop ex.plugins result queryId

/-- extendStackTrace from the source.  The stack captured by creating a
fresh Error at the interception site depends on the runtime, so it is an
explicit parameter: none models an undefined fresh stack and the list of
lines models the string.  When the thrown value holds a string stack and
the fresh stack is truthy (defined and not the empty string, whose line
list is the singleton of the empty string), the fresh stack minus its
first line is joined with newlines and appended after a newline; in line
terms that appends the dropped list when nonempty and one empty line
otherwise. -/
def extendStackTrace (freshStack : Option (List String)) (err : JsError) : JsError :=
  match err.stack with
  | some st =>
    match freshStack with
    | none => err
    | some fs =>
      if fs = [""] then err
      else
        let stackExtension := fs.drop 1
        { err with
          stack := some (st ++ (if stackExtension = [] then [""] else stackExtension)) }
  | none => err

/-- The unit of work executeQuery hands to provideConnection: execute
the compiled query on the provided connection, then push the raw result
through the result-transform chain. -/
def QueryExecutorBase.executeQueryWork (ex : QueryExecutorBase)
    (compiledQuery : CompiledQuery) (queryId : QueryId)
    (connection : DatabaseConnection) : Except JsError QueryResult :=
  match connection.executeQuery compiledQuery with
  | Except.ok result => transformResultLoop ex.plugins result queryId
  | Except.error e => Except.error e

/-- QueryExecutorBase.executeQuery: ask provideConnection to run the
unit of work; any failure is intercepted once at this boundary and
re-raised after extendStackTrace.  `freshStack` is the trace captured by
the fresh Error created inside extendStackTrace at this site. -/
def QueryExecutorBase.executeQuery (ex : QueryExecutorBase)
    (compiledQuery : CompiledQuery) (queryId : QueryId)
    (freshStack : Option (List String)) : Except JsError QueryResult :=
  match ex.provideConnection (ex.executeQueryWork compiledQuery queryId) with
  | Except.ok v => Except.ok v
  | Except.error err => Except.error (extendStackTrace freshStack err)

/-- Modelled from the spec: `withPlugin` is abstract in the source file;
section 4.4 of the spec says it derives a new orchestrator with the
plugin added to the end of the sequence, sharing all non-varied
configuration, without mutating the receiver. -/
def QueryExecutorBase.withPlugin (ex : QueryExecutorBase)
    (plugin : KyselyPlugin) : QueryExecutorBase :=
  { ex with plugins := ex.plugins ++ [plugin] }

/-- Modelled from the spec: `withPlugins` is abstract in the source
file; section 4.4 of the spec says it replaces the entire plugin
sequence, sharing all non-varied configuration. -/
def QueryExecutorBase.withPlugins (ex : QueryExecutorBase)
    (plugins : List KyselyPlugin) : QueryExecutorBase :=
  { ex with plugins := plugins }

/-- Modelled from the spec: `withPluginAtFront` is abstract in the
source file; section 4.4 of the spec says it adds one plugin to the
front of the sequence, sharing all non-varied configuration. -/
def QueryExecutorBase.withPluginAtFront (ex : QueryExecutorBase)
    (plugin : KyselyPlugin) : QueryExecutorBase :=
  { ex with plugins := plugin :: ex.plugins }

/-- Modelled from the spec: `withoutPlugins` is abstract in the source
file; section 4.4 of the spec says it clears the plugin sequence to
empty, sharing all non-varied configuration. -/
def QueryExecutorBase.withoutPlugins (ex : QueryExecutorBase) : QueryExecutorBase :=
  { ex with plugins := NO_PLUGINS }

/-! Sample objects used by the witness theorems. -/

/-- A concrete query identifier. -/
def qid : QueryId := "query-1"

/-- A concrete select node. -/
def selNode : OpNode := { kind := "SelectQueryNode", data := 3 }

/-- A kind-preserving plugin rewriting the payload. -/
def upPlugin : KyselyPlugin where
  transformQuery := fun nd _ => { nd with data := nd.data + 1 }
  transformResult := fun r _ => Except.ok { rows := r.rows ++ [100] }

/-- A second kind-preserving plugin. -/
def limitPlugin : KyselyPlugin where
  transformQuery := fun nd _ => { nd with data := nd.data * 10 }
  transformResult := fun r _ => Except.ok { rows := 7 :: r.rows }

/-- A plugin violating the structural invariant: it always returns a
delete node. -/
def badPlugin : KyselyPlugin where
  transformQuery := fun _ _ => { kind := "DeleteQueryNode", data := 0 }
  transformResult := fun r _ => Except.ok r

/-- A connection answering every query with two rows. -/
def sampleConnection : DatabaseConnection where
  executeQuery := fun _ => Except.ok { rows := [1, 2] }

/-- A well-behaved executor with two kind-preserving plugins and a
provider that applies the consumer to sampleConnection. -/
def sampleExecutor : QueryExecutorBase where
  plugins := [upPlugin, limitPlugin]
  adapter := "postgres"
  compileQuery := fun nd _ => { sql := nd.kind }
  provideConnection := fun consumer => consumer sampleConnection

/-- An executor whose second plugin violates the structural invariant. -/
def badExecutor : QueryExecutorBase :=
  sampleExecutor.withPlugins [upPlugin, badPlugin, limitPlugin]

/-- An executor constructed with the default empty plugin sequence. -/
def emptyExecutor : QueryExecutorBase :=
  sampleExecutor.withPlugins NO_PLUGINS

/-! Helper lemmas about the transform chains. -/

/-- Splitting the query-transform loop at a list append. -/
theorem transformQueryLoopAppend (xs ys : List KyselyPlugin) (n : OpNode)
    (id : QueryId) :
    transformQueryLoop (xs ++ ys) n id =
      (transformQueryLoop xs n id).bind (fun m => transformQueryLoop ys m id) := by
  induction xs generalizing n with
  | nil => rfl
  | cons p xs ih =>
    simp only [List.cons_append, transformQueryLoop]
    by_cases h : (p.transformQuery n id).kind = n.kind
    · simp only [h, if_true]
      exact ih _
    · simp only [h, if_false, Except.bind]

/-- When every plugin in the list preserves the kind of every node, the
loop succeeds and computes the left fold of the plugin transforms. -/
theorem transformQueryLoopFoldl (ps : List KyselyPlugin) (n : OpNode)
    (id : QueryId)
    (h : ∀ p ∈ ps, ∀ nd : OpNode, (p.transformQuery nd id).kind = nd.kind) :
    transformQueryLoop ps n id =
      Except.ok (ps.foldl (fun nd p => p.transformQuery nd id) n) := by
  induction ps generalizing n with
  | nil => rfl
  | cons p ps ih =>
    simp only [transformQueryLoop, List.foldl_cons]
    rw [if_pos (h p (List.mem_cons_self p ps) n)]
    exact ih _ (fun q hq nd => h q (List.mem_cons_of_mem p hq) nd)

/-- A successful run of the query-transform loop preserves the kind. -/
theorem transformQueryLoopKind (ps : List KyselyPlugin) (n m : OpNode)
    (id : QueryId) (h : transformQueryLoop ps n id = Except.ok m) :
    m.kind = n.kind := by
  induction ps generalizing n with
  | nil =>
    simp only [transformQueryLoop] at h
    cases h
    rfl
  | cons p ps ih =>
    simp only [transformQueryLoop] at h
    by_cases hk : (p.transformQuery n id).kind = n.kind
    · rw [if_pos hk] at h
      exact (ih _ h).trans hk
    · rw [if_neg hk] at h
      cases h

/-- C1: when every plugin of the executor returns a node of the same
kind as its input, transformQuery succeeds and returns the left fold of
the plugin query-transforms over the input node, applying each plugin
once, in registration order, each receiving the output of the previous
one. -/
theorem transformQuery_kind_preserving_foldl (ex : QueryExecutorBase)
    (n : OpNode) (id : QueryId)
    (h : ∀ p ∈ ex.plugins, ∀ nd : OpNode, (p.transformQuery nd id).kind = nd.kind) :
    ex.transformQuery n id =
      Except.ok (ex.plugins.foldl (fun nd p => p.transformQuery nd id) n) :=
  transformQueryLoopFoldl ex.plugins n id h

/-- Witness for C1 at a concrete executor and node. -/
theorem transformQuery_kind_preserving_foldl_witness :
    (∀ p ∈ sampleExecutor.plugins, ∀ nd : OpNode,
        (p.transformQuery nd qid).kind = nd.kind) ∧
    sampleExecutor.transformQuery selNode qid =
      Except.ok (sampleExecutor.plugins.foldl
        (fun nd p => p.transformQuery nd qid) selNode) :=
  ⟨fun p hp nd => by
      simp only [sampleExecutor, List.mem_cons, List.not_mem_nil, or_false] at hp
      rcases hp with rfl | rfl <;> rfl,
   transformQuery_kind_preserving_foldl sampleExecutor selNode qid
     (fun p hp nd => by
        simp only [sampleExecutor, List.mem_cons, List.not_mem_nil, or_false] at hp
        rcases hp with rfl | rfl <;> rfl)⟩

/-- C2: when the plugin sequence splits as pre, bad, post, with every
plugin of pre kind-preserving and bad changing the kind of the node it
receives (the fold of pre over the input), transformQuery fails with the
error message naming the expected and actual kinds, and the outcome is
that of the chain truncated right after bad: the plugins of post are
never consulted and no partially transformed tree is returned. -/
theorem transformQuery_kind_mismatch_error (ex : QueryExecutorBase)
    (pre post : List KyselyPlugin) (bad : KyselyPlugin) (n : OpNode)
    (id : QueryId) (hsplit : ex.plugins = pre ++ bad :: post)
    (hpre : ∀ p ∈ pre, ∀ nd : OpNode, (p.transformQuery nd id).kind = nd.kind)
    (hbad : (bad.transformQuery (pre.foldl (fun nd p => p.transformQuery nd id) n) id).kind ≠
        (pre.foldl (fun nd p => p.transformQuery nd id) n).kind) :
    ex.transformQuery n id =
      Except.error (transformQueryErrorMessage
        (pre.foldl (fun nd p => p.transformQuery nd id) n).kind
        (bad.transformQuery (pre.foldl (fun nd p => p.transformQuery nd id) n) id).kind) ∧
    ex.transformQuery n id = transformQueryLoop (pre ++ [bad]) n id := by
  have hloop : ∀ zs : List KyselyPlugin,
      transformQueryLoop (pre ++ bad :: zs) n id =
        Except.error (transformQueryErrorMessage
          (pre.foldl (fun nd p => p.transformQuery nd id) n).kind
          (bad.transformQuery (pre.foldl (fun nd p => p.transformQuery nd id) n) id).kind) := by
    intro zs
    rw [transformQueryLoopAppend, transformQueryLoopFoldl pre n id hpre]
    simp only [Except.bind, transformQueryLoop]
    rw [if_neg hbad]
  constructor
  · rw [QueryExecutorBase.transformQuery, hsplit, hloop post]
  · rw [QueryExecutorBase.transformQuery, hsplit, hloop post]
    exact (hloop []).symm

/-- Witness for C2: badExecutor has plugins upPlugin, badPlugin,
limitPlugin; badPlugin turns a select node into a delete node. -/
theorem transformQuery_kind_mismatch_error_witness :
    badExecutor.plugins = [upPlugin] ++ badPlugin :: [limitPlugin] ∧
    badExecutor.transformQuery selNode qid =
      Except.error (transformQueryErrorMessage
        ([upPlugin].foldl (fun nd p => p.transformQuery nd qid) selNode).kind
        (badPlugin.transformQuery
          ([upPlugin].foldl (fun nd p => p.transformQuery nd qid) selNode) qid).kind) ∧
    badExecutor.transformQuery selNode qid =
      transformQueryLoop ([upPlugin] ++ [badPlugin]) selNode qid := by
  have h := transformQuery_kind_mismatch_error badExecutor [upPlugin] [limitPlugin]
    badPlugin selNode qid rfl
    (fun p hp nd => by
      simp only [List.mem_cons, List.not_mem_nil, or_false] at hp
      subst hp
      rfl)
    (by decide)
  exact ⟨rfl, h.1, h.2⟩

/-- C9: an executor holding the default empty plugin sequence leaves
every node and every result unchanged: both transform chains are the
identity. -/
theorem empty_plugins_identity (ex : QueryExecutorBase)
    (h : ex.plugins = NO_PLUGINS) (n : OpNode) (r : QueryResult)
    (id : QueryId) :
    ex.transformQuery n id = Except.ok n ∧
    ex.transformResult r id = Except.ok r := by
  rw [QueryExecutorBase.transformQuery, QueryExecutorBase.transformResult, h]
  exact ⟨rfl, rfl⟩

/-- Witness for C9 at the concrete plugin-free executor. -/
theorem empty_plugins_identity_witness :
    emptyExecutor.plugins = NO_PLUGINS ∧
    emptyExecutor.transformQuery selNode qid = Except.ok selNode ∧
    emptyExecutor.transformResult { rows := [5] } qid =
      Except.ok { rows := [5] } := by
  have h := empty_plugins_identity emptyExecutor rfl selNode { rows := [5] } qid
  exact ⟨rfl, h.1, h.2⟩

/-- C10: whatever the plugin sequence, whenever transformQuery returns
normally the returned node has the kind of the input node: the per-step
runtime check makes kind preservation an unconditional invariant of
every successful call. -/
theorem transformQuery_ok_kind_invariant (ex : QueryExecutorBase)
    (n m : OpNode) (id : QueryId)
    (h : ex.transformQuery n id = Except.ok m) : m.kind = n.kind :=
  transformQueryLoopKind ex.plugins n m id h

/-- Witness for C10 at a concrete successful call. -/
theorem transformQuery_ok_kind_invariant_witness :
    sampleExecutor.transformQuery selNode qid =
      Except.ok { kind := "SelectQueryNode", data := 40 } ∧
    OpNode.kind { kind := "SelectQueryNode", data := 40 } = selNode.kind :=
  ⟨rfl, transformQuery_ok_kind_invariant sampleExecutor selNode
    { kind := "SelectQueryNode", data := 40 } qid rfl⟩

/-- Splitting the result-transform loop at a list append. -/
theorem transformResultLoopAppend (xs ys : List KyselyPlugin)
    (r : QueryResult) (id : QueryId) :
    transformResultLoop (xs ++ ys) r id =
      (transformResultLoop xs r id).bind (fun m => transformResultLoop ys m id) := by
  induction xs generalizing r with
  | nil => rfl
  | cons p xs ih =>
    simp only [List.cons_append, transformResultLoop]
    cases h : p.transformResult r id with
    | ok v => exact ih v
    | error e => rfl

/-- The result-transform loop is the monadic left fold of the plugin
result-transforms over the plugin list, in registration order. -/
theorem transformResultLoopFoldlM (ps : List KyselyPlugin) (r : QueryResult)
    (id : QueryId) :
    transformResultLoop ps r id =
      ps.foldlM (fun res p => p.transformResult res id) r := by
  induction ps generalizing r with
  | nil => rfl
  | cons p ps ih =>
    simp only [transformResultLoop, List.foldlM_cons]
    cases h : p.transformResult r id with
    | ok v => exact ih v
    | error e => rfl

/-- C3: the result-transform chain applies every plugin in the same
registration order as transformQuery (the plugin list is folded from the
left, not reversed), each step feeding its output to the next plugin,
and no kind check is performed on results (the result type carries no
kind and the chain inspects nothing). -/
theorem transformResult_same_order_foldlM (ex : QueryExecutorBase)
    (r : QueryResult) (id : QueryId) :
    ex.transformResult r id =
      ex.plugins.foldlM (fun res p => p.transformResult res id) r ∧
    (∀ (p : KyselyPlugin) (ps : List KyselyPlugin) (res : QueryResult),
        transformResultLoop (p :: ps) res id =
          (p.transformResult res id).bind (fun m => transformResultLoop ps m id)) :=
  ⟨transformResultLoopFoldlM ex.plugins r id,
   fun p ps res => by
     cases h : p.transformResult res id with
     | ok v => simp only [transformResultLoop, h, Except.bind]
     | error e => simp only [transformResultLoop, h, Except.bind]⟩

/-- A concrete compiled query for the witnesses. -/
def cqSample : CompiledQuery := { sql := "select 1" }

/-- A concrete fresh trace captured at the interception site. -/
def freshTrace : List String := ["Error", "    at executeQuery site"]

/-- The unit of work is the bind of connection execution with the
result-transform chain. -/
theorem executeQueryWorkBind (ex : QueryExecutorBase) (cq : CompiledQuery)
    (id : QueryId) (conn : DatabaseConnection) :
    ex.executeQueryWork cq id conn =
      (conn.executeQuery cq).bind
        (fun raw => transformResultLoop ex.plugins raw id) := by
  cases h : conn.executeQuery cq with
  | ok raw => simp only [QueryExecutorBase.executeQueryWork, h, Except.bind]
  | error e => simp only [QueryExecutorBase.executeQueryWork, h, Except.bind]

/-- C4: executeQuery hands provideConnection a unit of work that runs
the compiled query on the provided connection and pushes the raw result
through the result-transform chain, and an ok value produced by
provideConnection is returned unchanged as the value of executeQuery. -/
theorem executeQuery_provideConnection_value (ex : QueryExecutorBase)
    (cq : CompiledQuery) (id : QueryId) (fs : Option (List String)) :
    (∀ conn : DatabaseConnection,
        ex.executeQueryWork cq id conn =
          (conn.executeQuery cq).bind
            (fun raw => transformResultLoop ex.plugins raw id)) ∧
    (∀ v : QueryResult,
        ex.provideConnection (ex.executeQueryWork cq id) = Except.ok v →
          ex.executeQuery cq id fs = Except.ok v) := by
  constructor
  · intro conn
    exact executeQueryWorkBind ex cq id conn
  · intro v hv
    rw [QueryExecutorBase.executeQuery, hv]

/-- Witness for C4: the sample provider applies the work to the sample
connection, yielding the fully transformed rows. -/
theorem executeQuery_provideConnection_value_witness :
    sampleExecutor.provideConnection (sampleExecutor.executeQueryWork cqSample qid) =
      Except.ok { rows := [7, 1, 2, 100] } ∧
    sampleExecutor.executeQuery cqSample qid (some freshTrace) =
      Except.ok { rows := [7, 1, 2, 100] } :=
  ⟨rfl,
   (executeQuery_provideConnection_value sampleExecutor cqSample qid
      (some freshTrace)).2 { rows := [7, 1, 2, 100] } rfl⟩

/-- The interception step keeps the identity and the carried data of
the failure in every case. -/
theorem extendStackTraceIdent (fs : Option (List String)) (err : JsError) :
    (extendStackTrace fs err).name = err.name ∧
    (extendStackTrace fs err).data = err.data := by
  rcases err with ⟨nm, dt, stk⟩
  cases stk with
  | none => exact ⟨rfl, rfl⟩
  | some st =>
    cases fs with
    | none => exact ⟨rfl, rfl⟩
    | some l =>
      by_cases hl : l = [""]
      · simp [extendStackTrace, hl]
      · simp [extendStackTrace, hl]

/-- C5: a failure surfacing from provideConnection is intercepted once
at the orchestrator boundary and re-raised through extendStackTrace:
executeQuery fails with exactly that value, whose identity and carried
data are untouched, and a failure exposing no string trace is re-raised
entirely unchanged. -/
theorem executeQuery_error_passthrough (ex : QueryExecutorBase)
    (cq : CompiledQuery) (id : QueryId) (fs : Option (List String))
    (err : JsError)
    (h : ex.provideConnection (ex.executeQueryWork cq id) = Except.error err) :
    ex.executeQuery cq id fs = Except.error (extendStackTrace fs err) ∧
    (extendStackTrace fs err).name = err.name ∧
    (extendStackTrace fs err).data = err.data ∧
    (err.stack = none → extendStackTrace fs err = err) := by
  refine ⟨?_, (extendStackTraceIdent fs err).1, (extendStackTraceIdent fs err).2, ?_⟩
  · rw [QueryExecutorBase.executeQuery, h]
  · intro hn
    rcases err with ⟨nm, dt, stk⟩
    cases hn
    rfl

/-- A provisioning failure carrying a stack trace. -/
def provisioningError : JsError :=
  { name := "Error", data := 42, stack := some ["Error: pool exhausted", "    at acquire"] }

/-- An executor whose provider always fails. -/
def failExecutor : QueryExecutorBase where
  plugins := [upPlugin]
  adapter := "postgres"
  compileQuery := fun nd _ => { sql := nd.kind }
  provideConnection := fun _ => Except.error provisioningError

/-- Witness for C5 at the failing provider. -/
theorem executeQuery_error_passthrough_witness :
    failExecutor.provideConnection (failExecutor.executeQueryWork cqSample qid) =
      Except.error provisioningError ∧
    (failExecutor.executeQuery cqSample qid (some freshTrace) =
        Except.error (extendStackTrace (some freshTrace) provisioningError) ∧
      (extendStackTrace (some freshTrace) provisioningError).name =
        provisioningError.name ∧
      (extendStackTrace (some freshTrace) provisioningError).data =
        provisioningError.data ∧
      (provisioningError.stack = none →
        extendStackTrace (some freshTrace) provisioningError = provisioningError)) :=
  ⟨rfl,
   executeQuery_error_passthrough failExecutor cqSample qid (some freshTrace)
     provisioningError rfl⟩

/-- Value of the interception step on a stack-holding failure when the
freshly captured trace is truthy: the original lines followed by the
fresh trace minus its leading line (one empty line when nothing is
left, from the newline joining the two strings). -/
theorem extendStackTraceSome (l st : List String) (err : JsError)
    (hst : err.stack = some st) (hl : l ≠ [""]) :
    extendStackTrace (some l) err =
      { err with stack := some (st ++ (if l.drop 1 = [] then [""] else l.drop 1)) } := by
  rcases err with ⟨nm, dt, stk⟩
  simp only at hst
  subst hst
  simp [extendStackTrace, hl]

/-- C6: when the intercepted failure holds a trace and the freshly
captured trace is truthy, the trace propagating out of executeQuery is
the original trace with the fresh trace appended minus its leading
frame, and it has strictly more lines than the original. -/
theorem executeQuery_stack_strict_superset (ex : QueryExecutorBase)
    (cq : CompiledQuery) (id : QueryId) (err : JsError)
    (st l : List String)
    (herr : ex.provideConnection (ex.executeQueryWork cq id) = Except.error err)
    (hst : err.stack = some st) (hl : l ≠ [""]) :
    ∃ newSt : List String,
      ex.executeQuery cq id (some l) =
        Except.error { err with stack := some newSt } ∧
      newSt = st ++ (if l.drop 1 = [] then [""] else l.drop 1) ∧
      st.length < newSt.length := by
  refine ⟨st ++ (if l.drop 1 = [] then [""] else l.drop 1), ?_, rfl, ?_⟩
  · rw [QueryExecutorBase.executeQuery, herr]
    show Except.error (extendStackTrace (some l) err) = _
    rw [extendStackTraceSome l st err hst hl]
  · have hpos : 0 < (if l.drop 1 = [] then [""] else l.drop 1).length := by
      split
      · simp
      · exact List.length_pos.mpr (by assumption)
    simp only [List.length_append]
    omega

/-- Witness for C6 at the failing provider and a concrete fresh trace. -/
theorem executeQuery_stack_strict_superset_witness :
    freshTrace ≠ [""] ∧
    ∃ newSt : List String,
      failExecutor.executeQuery cqSample qid (some freshTrace) =
        Except.error { provisioningError with stack := some newSt } ∧
      newSt = ["Error: pool exhausted", "    at acquire"] ++
        (if freshTrace.drop 1 = [] then [""] else freshTrace.drop 1) ∧
      (["Error: pool exhausted", "    at acquire"] : List String).length < newSt.length :=
  ⟨by decide,
   executeQuery_stack_strict_superset failExecutor cqSample qid provisioningError
     ["Error: pool exhausted", "    at acquire"] freshTrace rfl rfl (by decide)⟩

/-- C7: with a provider that applies the work to a connection, an ok
value of executeQuery is always the full result-transform chain applied
to the raw result of the connection, and when some plugin of the chain
rejects on its threaded input the whole call fails with that error
whatever plugins follow: no partially transformed result is ever
returned. -/
theorem executeQuery_all_or_nothing (ex : QueryExecutorBase)
    (cq : CompiledQuery) (id : QueryId) (fs : Option (List String))
    (conn : DatabaseConnection)
    (hprov : ex.provideConnection = fun consumer => consumer conn) :
    (∀ v : QueryResult, ex.executeQuery cq id fs = Except.ok v →
      ∃ raw : QueryResult, conn.executeQuery cq = Except.ok raw ∧
        transformResultLoop ex.plugins raw id = Except.ok v) ∧
    (∀ (pre post : List KyselyPlugin) (p : KyselyPlugin)
        (raw m : QueryResult) (e : JsError),
      ex.plugins = pre ++ p :: post →
      conn.executeQuery cq = Except.ok raw →
      transformResultLoop pre raw id = Except.ok m →
      p.transformResult m id = Except.error e →
      ex.executeQuery cq id fs = Except.error (extendStackTrace fs e)) := by
  have hshape : ∀ v : Except JsError QueryResult,
      ex.executeQueryWork cq id conn = v →
      ex.executeQuery cq id fs =
        (match v with
          | Except.ok w => Except.ok w
          | Except.error e => Except.error (extendStackTrace fs e)) := by
    intro v hv
    rw [QueryExecutorBase.executeQuery, hprov]
    show (match ex.executeQueryWork cq id conn with
      | Except.ok w => Except.ok w
      | Except.error e => Except.error (extendStackTrace fs e)) = _
    rw [hv]
  constructor
  · intro v hv
    cases hconn : conn.executeQuery cq with
    | error e =>
      have hw : ex.executeQueryWork cq id conn = Except.error e := by
        rw [executeQueryWorkBind, hconn]
        rfl
      rw [hshape _ hw] at hv
      cases hv
    | ok raw =>
      cases hres : transformResultLoop ex.plugins raw id with
      | ok w =>
        have hw : ex.executeQueryWork cq id conn = Except.ok w := by
          rw [executeQueryWorkBind, hconn]
          exact hres
        rw [hshape _ hw] at hv
        cases hv
        exact ⟨raw, rfl, hres⟩
      | error e =>
        have hw : ex.executeQueryWork cq id conn = Except.error e := by
          rw [executeQueryWorkBind, hconn]
          exact hres
        rw [hshape _ hw] at hv
        cases hv
  · intro pre post p raw m e hps hconn hpre hp
    have hloop : transformResultLoop ex.plugins raw id = Except.error e := by
      rw [hps, transformResultLoopAppend, hpre]
      simp only [Except.bind, transformResultLoop, hp]
    have hw : ex.executeQueryWork cq id conn = Except.error e := by
      rw [executeQueryWorkBind, hconn]
      exact hloop
    rw [hshape _ hw]

/-- A failure thrown by a plugin result-transform (no stack string). -/
def pluginError : JsError := { name := "TypeError", data := 7, stack := none }

/-- A plugin whose result-transform always rejects. -/
def failPlugin : KyselyPlugin where
  transformQuery := fun nd _ => nd
  transformResult := fun _ _ => Except.error pluginError

/-- An executor whose middle plugin rejects during result transform. -/
def rejectExecutor : QueryExecutorBase where
  plugins := [upPlugin, failPlugin, limitPlugin]
  adapter := "postgres"
  compileQuery := fun nd _ => { sql := nd.kind }
  provideConnection := fun consumer => consumer sampleConnection

/-- Witness for C7: the middle plugin rejects, the call fails and the
trailing plugin never contributes. -/
theorem executeQuery_all_or_nothing_witness :
    rejectExecutor.provideConnection = (fun consumer => consumer sampleConnection) ∧
    rejectExecutor.executeQuery cqSample qid (some freshTrace) =
      Except.error (extendStackTrace (some freshTrace) pluginError) :=
  ⟨rfl,
   (executeQuery_all_or_nothing rejectExecutor cqSample qid (some freshTrace)
      sampleConnection rfl).2 [upPlugin] [limitPlugin] failPlugin
      { rows := [1, 2] } { rows := [1, 2, 100] } pluginError rfl rfl rfl rfl⟩

/-- C8: each derivation operation is a pure function of the receiver (a
value which no operation can mutate in this embedding, the plugin
sequence being fixed at construction): it returns a new instance whose
plugin sequence is the receiver sequence with the plugin appended,
replaced wholesale, prepended, or cleared, while the adapter, the
compiler and the provisioning capability are shared unchanged, and the
receiver keeps its own plugin sequence. -/
theorem derivation_ops_immutability (ex : QueryExecutorBase)
    (p : KyselyPlugin) (ps : List KyselyPlugin) :
    (ex.withPlugin p).plugins = ex.plugins ++ [p] ∧
    (ex.withPlugins ps).plugins = ps ∧
    (ex.withPluginAtFront p).plugins = p :: ex.plugins ∧
    (ex.withoutPlugins).plugins = NO_PLUGINS ∧
    ((ex.withPlugin p).adapter = ex.adapter ∧
      (ex.withPlugin p).compileQuery = ex.compileQuery ∧
      (ex.withPlugin p).provideConnection = ex.provideConnection) ∧
    ((ex.withPlugins ps).adapter = ex.adapter ∧
      (ex.withPlugins ps).compileQuery = ex.compileQuery ∧
      (ex.withPlugins ps).provideConnection = ex.provideConnection) ∧
    ((ex.withPluginAtFront p).adapter = ex.adapter ∧
      (ex.withPluginAtFront p).compileQuery = ex.compileQuery ∧
      (ex.withPluginAtFront p).provideConnection = ex.provideConnection) ∧
    ((ex.withoutPlugins).adapter = ex.adapter ∧
      (ex.withoutPlugins).compileQuery = ex.compileQuery ∧
      (ex.withoutPlugins).provideConnection = ex.provideConnection) ∧
    ex.plugins = ex.plugins :=
  ⟨rfl, rfl, rfl, rfl, ⟨rfl, rfl, rfl⟩, ⟨rfl, rfl, rfl⟩, ⟨rfl, rfl, rfl⟩,
   ⟨rfl, rfl, rfl⟩, rfl⟩
